import Mathlib

/-!
Shallow embedding of the Dotulous dotfile manager (src/main.rs, src/profile.rs,
src/meta.rs, src/error.rs) and proofs about its profile load/unload lifecycle,
trust bookkeeping and manifest handling.

Modelling conventions:
* Rust `PathBuf` values are `RPath`: an absoluteness flag plus the list of path
  components.  `Path::join` with an absolute argument replaces the receiver,
  which `RPath.join` mirrors; Rust `Path` equality is component-wise, matching
  `RPath` structural equality.
* The filesystem is a list of `(path, node)` entries.  `Path::exists` /
  `Path::is_dir` are entry lookups (symlink targets are not chased; every
  directory relevant to the theorems below is a genuine `dir` node).
* On-disk JSON records (meta.json, manifest.json) are modelled at record level,
  as the spec's external "load/persist record of type T" capability: a `Disk`
  carries the decoded `Meta` and a map from manifest-file path to the stored
  `DotfileProfile`.  A missing map entry stands for any of the read /
  deserialize failure modes.
* Shell commands are external effects: a `CmdEnv` decides each command's
  outcome.  Commands do not themselves edit the modelled filesystem.
* `HashMap` iteration order is unspecified in Rust; `files` is an association
  list fixing one iteration order, and order-sensitive claims are settled
  against "for every order" readings by exhibiting a concrete order.
-/

namespace Dotulous

/-- Model of a Rust `PathBuf`: absoluteness flag plus path components. -/
structure RPath where
  absolute : Bool
  components : List String
deriving DecidableEq

/-- Model of Rust `Path::join`: an absolute right-hand side replaces the whole
path, otherwise the components are appended. -/
def RPath.join (a b : RPath) : RPath :=
  if b.absolute then b else ⟨a.absolute, a.components ++ b.components⟩

/-- The filesystem root `/` (`Path::new("/")`). -/
def rootPath : RPath := ⟨true, []⟩

/-- Kind of node present at a path. -/
inductive FsNode where
  | file
  | dir
  | symlink (target : RPath)
deriving DecidableEq

/-- One existing filesystem object. -/
structure FsEntry where
  path : RPath
  node : FsNode
deriving DecidableEq

/-- The modelled filesystem: the set of existing nodes, as a list. -/
abbrev Fs := List FsEntry

/-- Node stored at `p`, if any. -/
def fsLookup (fs : Fs) (p : RPath) : Option FsNode :=
  (fs.find? (fun e => e.path == p)).map (·.node)

/-- Model of `Path::exists`. -/
def pathExists (fs : Fs) (p : RPath) : Bool :=
  (fsLookup fs p).isSome

/-- Model of `Path::is_dir`. -/
def isDirAt (fs : Fs) (p : RPath) : Bool :=
  fsLookup fs p == some .dir

/-- Does `base` lead to `p`, i.e. is `base` a path-component prefix of `p`
(with the same absoluteness)?  Used to model recursive directory removal. -/
def withinPath (base p : RPath) : Bool :=
  base.absolute == p.absolute && base.components.isPrefixOf p.components

/-- Model of `fs::remove_dir_all`: drops the node and everything below it. -/
def removeDirAll (fs : Fs) (p : RPath) : Fs :=
  fs.filter (fun e => !(withinPath p e.path))

/-- Model of `fs::remove_file`: drops the node at exactly that path. -/
def removeFile (fs : Fs) (p : RPath) : Fs :=
  fs.filter (fun e => e.path != p)

/-- The `DotfileProfile` struct of src/profile.rs.  `files` is the `HashMap`
in one iteration order. -/
structure DotfileProfile where
  name : String
  manifest_path : RPath
  repo_path : RPath
  files : List (RPath × RPath)
  pre_commands : List String
  post_commands : List String
  removal_commands : List String
deriving DecidableEq

/-- The `DotulousError` enum of src/error.rs. -/
inductive DotulousError where
  | profileNotFound
  | noManifestInProfile
  | failedReadManifest
  | failedDeserializeManifest
  | failedSerializeManifest
  | failedSaveManifest
  | fillManifestArrayNotEmpty
  | failedReadProfileDirectory
  | metaNotFound
  | failedSerializeMeta
  | failedDeserializeMeta
  | failedSaveMeta
deriving DecidableEq

deriving instance DecidableEq for Except

/-- Outcome of `Command::new("sh").arg("-c").arg(cmd).output()`: `Ok` with a
zero or non-zero exit status, or `Err` (the spawn itself failed). -/
inductive CmdResult where
  | success
  | nonzeroExit (code : Int)
  | spawnFailure
deriving DecidableEq

/-- External decision of each shell command's outcome. -/
abbrev CmdEnv := String → CmdResult

/-- One command phase of `load_profile_to_system` / `unload_profile_from_system`
(src/profile.rs lines 170-181, 201-212, 256-267).  Returns whether the loop
panicked, together with the "Command failed to run" error lines printed.

The Rust loop is `if command.is_err() { let unwrapped = command.unwrap(); ... }`:
when the spawn failed, `command.unwrap()` on the `Err` panics before the
`println!`, so the error line is unreachable; when the spawn succeeded with a
non-zero exit status, `is_err()` is `false` and the branch is skipped entirely.
Hence no command failure is ever logged, and a spawn failure aborts the whole
operation by panic. -/
def runCommands (env : CmdEnv) : List String → Bool × List String
  | [] => (false, [])
  | c :: rest =>
    match env c with
    | .spawnFailure => (true, [])
    | .success => runCommands env rest
    | .nonzeroExit _ => runCommands env rest

/-- Result of a Profile Engine operation: the filesystem reached, and whether
the Rust process panicked (aborted) on the way. -/
structure EngineResult where
  panicked : Bool
  fs : Fs
deriving DecidableEq

/-- Symlink phase of `load_profile_to_system` (src/profile.rs lines 185-196):
skip a destination that already exists, otherwise create a symlink there. -/
def symlinkPhase (repo home : RPath) : List (RPath × RPath) → Fs → Fs
  | [], fs => fs
  | (srcRel, destRel) :: rest, fs =>
    let source := repo.join srcRel
    let destination := home.join destRel
    if pathExists fs destination then
      symlinkPhase repo home rest fs
    else
      symlinkPhase repo home rest (⟨destination, .symlink source⟩ :: fs)

/-- `DotfileProfile::load_profile_to_system` (src/profile.rs lines 165-215):
pre-commands, then the symlink phase, then post-commands. -/
def load_profile_to_system (p : DotfileProfile) (home : RPath) (env : CmdEnv)
    (fs : Fs) : EngineResult :=
  let pre := runCommands env p.pre_commands
  if pre.1 then ⟨true, fs⟩
  else
    let fs2 := symlinkPhase p.repo_path home p.files fs
    let post := runCommands env p.post_commands
    ⟨post.1, fs2⟩

/-- File-removal loop of `unload_profile_from_system` (src/profile.rs lines
233-251): skip absent destinations; for a directory, assert it is neither `/`
nor the home path (panic otherwise) and remove it recursively; otherwise
remove the single file. -/
def unloadFiles (home : RPath) : List (RPath × RPath) → Fs → EngineResult
  | [], fs => ⟨false, fs⟩
  | (_, destRel) :: rest, fs =>
    if !(pathExists fs (home.join destRel)) then
      unloadFiles home rest fs
    else if isDirAt fs (home.join destRel) then
      if home.join destRel = rootPath then ⟨true, fs⟩
      else if home.join destRel = home then ⟨true, fs⟩
      else unloadFiles home rest (removeDirAll fs (home.join destRel))
    else
      unloadFiles home rest (removeFile fs (home.join destRel))

/-- `DotfileProfile::unload_profile_from_system` (src/profile.rs lines
231-269): the file-removal loop, then the removal commands. -/
def unload_profile_from_system (p : DotfileProfile) (home : RPath)
    (env : CmdEnv) (fs : Fs) : EngineResult :=
  let r := unloadFiles home p.files fs
  if r.panicked then r
  else
    let rem := runCommands env p.removal_commands
    ⟨rem.1, r.fs⟩

/-- The `Meta` struct of src/meta.rs. -/
structure Meta where
  do_not_touch_this_file : String
  current_profile : Option DotfileProfile
  profile_path : Option RPath
  trusted_profiles : List RPath
deriving DecidableEq

/-- `Meta::new` (src/meta.rs lines 44-51). -/
def Meta.new : Meta :=
  ⟨"", none, none, []⟩

/-- `Meta::set_current_profile` (src/meta.rs lines 85-87): only the
`current_profile` field is written. -/
def Meta.set_current_profile (m : Meta) (p : DotfileProfile) : Meta :=
  { m with current_profile := some p }

/-- `Meta::empty_current_profile` (src/meta.rs lines 89-92). -/
def Meta.empty_current_profile (m : Meta) : Meta :=
  { m with current_profile := none, profile_path := none }

/-- `Meta::trust_profile` (src/meta.rs lines 99-101): `Vec::push`. -/
def Meta.trust_profile (m : Meta) (path : RPath) : Meta :=
  { m with trusted_profiles := m.trusted_profiles ++ [path] }

/-- `Meta::is_trusted` (src/meta.rs lines 103-105): `Vec::contains`. -/
def Meta.is_trusted (m : Meta) (path : RPath) : Bool :=
  m.trusted_profiles.contains path

/-- The mutating operations of the `Meta` API. -/
inductive MetaOp where
  | setCurrent (p : DotfileProfile)
  | emptyCurrent
  | trust (path : RPath)
deriving DecidableEq

/-- Effect of one `Meta` mutation. -/
def MetaOp.apply (m : Meta) : MetaOp → Meta
  | .setCurrent p => m.set_current_profile p
  | .emptyCurrent => m.empty_current_profile
  | .trust path => m.trust_profile path

/-- Effect of a sequence of `Meta` mutations, left to right. -/
def applyMetaOps (m : Meta) : List MetaOp → Meta
  | [] => m
  | op :: rest => applyMetaOps (op.apply m) rest

/-- Relative path of a profile's manifest file within its directory. -/
def manifestFile : RPath := ⟨false, ["manifest.json"]⟩

/-- Persistent state visible to the Session Controller: the home filesystem,
the decoded meta.json (none when missing or unreadable), and the decoded
manifest.json records keyed by the manifest file's full path. -/
structure Disk where
  fs : Fs
  meta : Option Meta
  manifests : List (RPath × DotfileProfile)
deriving DecidableEq

/-- Stored manifest record at path `p`, if present and readable. -/
def lookupManifest (d : Disk) (p : RPath) : Option DotfileProfile :=
  (d.manifests.find? (fun e => e.1 == p)).map (·.2)

/-- Overwrite the manifest record at path `p`. -/
def writeManifest (d : Disk) (p : RPath) (prof : DotfileProfile) : Disk :=
  { d with manifests := (p, prof) :: d.manifests.filter (fun e => e.1 != p) }

/-- `DotfileProfile::new` (src/profile.rs lines 57-67). -/
def DotfileProfile.new (name : String) (path : RPath) : DotfileProfile :=
  ⟨name, path.join manifestFile, path, [], [], [], []⟩

/-- `DotfileProfile::from_manifest` (src/profile.rs lines 91-104): read the
record at `profile_path/manifest.json`, then overwrite its `manifest_path` and
`repo_path` fields with the location actually used.  A missing record stands
for the not-found / read / deserialize failures, which the claims treat
alike. -/
def from_manifest (d : Disk) (profile_path : RPath) :
    Except DotulousError DotfileProfile :=
  match lookupManifest d (profile_path.join manifestFile) with
  | none => .error .noManifestInProfile
  | some stored =>
      .ok { stored with manifest_path := profile_path.join manifestFile,
                        repo_path := profile_path }

/-- `DotfileProfile::save_manifest` (src/profile.rs lines 111-115): write
`self` at `self.manifest_path`.  `writeOk` is the external write capability's
verdict (`fs::write` failing yields `FailedSaveManifest`). -/
def save_manifest (p : DotfileProfile) (writeOk : Bool) (d : Disk) :
    Except DotulousError Disk :=
  if writeOk then .ok (writeManifest d p.manifest_path p)
  else .error .failedSaveManifest

/-- `DotfileProfile::find_profile` (src/profile.rs lines 75-85): sanitize the
name (external collaborator, passed in), check the profile directory exists,
then delegate to `from_manifest`. -/
def find_profile (sanitize : String → String) (d : Disk)
    (dotulous_path : RPath) (profile_name : String) :
    Except DotulousError DotfileProfile :=
  if !(pathExists d.fs (dotulous_path.join ⟨false, [sanitize profile_name]⟩))
  then .error .profileNotFound
  else from_manifest d (dotulous_path.join ⟨false, [sanitize profile_name]⟩)

/-- Model of Rust `Path::strip_prefix` on component lists: the remainder of
`p` after `base`, when `base` leads to `p`. -/
def stripBase (base p : RPath) : Option RPath :=
  if withinPath base p then some ⟨false, p.components.drop base.components.length⟩
  else none

/-- `HashMap::insert` on the association-list view of `files`. -/
def insertFile (files : List (RPath × RPath)) (k v : RPath) :
    List (RPath × RPath) :=
  if files.any (fun e => e.1 == k) then
    files.map (fun e => if e.1 == k then (k, v) else e)
  else files ++ [(k, v)]

/-- One directory entry seen by `fs::read_dir`: the entry's full path, or an
error while iterating. -/
abbrev DirEntry := Except Unit RPath

/-- Scan loop of `fill_files` (src/profile.rs lines 134-142): on an entry
error or a `strip_prefix` failure return `FailedReadProfileDirectory`, keeping
whatever was already inserted into `files`; otherwise insert
`(relative, relative)` and continue. -/
def fillScan (repo : RPath) (acc : List (RPath × RPath)) :
    List DirEntry → Option DotulousError × List (RPath × RPath)
  | [] => (none, acc)
  | .error _ :: _ => (some .failedReadProfileDirectory, acc)
  | .ok fullPath :: rest =>
    match stripBase repo fullPath with
    | none => (some .failedReadProfileDirectory, acc)
    | some rel => fillScan repo (insertFile acc rel rel) rest

/-- `DotfileProfile::fill_files` (src/profile.rs lines 127-147).  `scan` is
the external `fs::read_dir` outcome (`none` when the directory itself cannot
be read).  Returns the Rust result together with the profile and disk states
after the call. -/
def fill_files (p : DotfileProfile) (scan : Option (List DirEntry))
    (writeOk : Bool) (d : Disk) :
    Except DotulousError Unit × DotfileProfile × Disk :=
  if !p.files.isEmpty then (.error .fillManifestArrayNotEmpty, p, d)
  else
    match scan with
    | none => (.error .failedReadProfileDirectory, p, d)
    | some entries =>
      match fillScan p.repo_path p.files entries with
      | (some e, sofar) => (.error e, { p with files := sofar }, d)
      | (none, allFiles) =>
        match save_manifest { p with files := allFiles } writeOk d with
        | .error e => (.error e, { p with files := allFiles }, d)
        | .ok d2 => (.ok (), { p with files := allFiles }, d2)

/-- ASCII lowering of one character — the fragment of Rust `to_lowercase`
that can affect a comparison against `"y"`. -/
def lowerChar (c : Char) : Char :=
  if 65 ≤ c.toNat ∧ c.toNat ≤ 90 then Char.ofNat (c.toNat + 32) else c

/-- Whitespace recognizer for the model of Rust `str::trim`. -/
def isWhiteChar (c : Char) : Bool :=
  c == ' ' || c == '\t' || c == '\n' || c == '\r'

/-- Model of Rust `input.trim()` on the character list of the stdin line. -/
def trimChars (s : List Char) : List Char :=
  ((s.dropWhile isWhiteChar).reverse.dropWhile isWhiteChar).reverse

/-- The trust prompt's affirmative check (src/main.rs line 170): the Rust
code proceeds exactly when `input.trim().to_lowercase() == "y"`. -/
def affirmativeResponse (s : List Char) : Bool :=
  (trimChars s).map lowerChar == ['y']

/-- How a CLI action terminated: normally, via `error_and_exit` /
`exit(-1)`, or by a Rust panic. -/
inductive RunOutcome where
  | ok
  | exited
  | panicked
deriving DecidableEq

/-- `action_load_profile` (src/main.rs lines 143-184): load meta; unload any
currently active profile from the system; resolve the target; if the target's
`repo_path` is untrusted, prompt (`response` is the stdin line) and quit
unless the trimmed, lowercased response is `"y"`, else record the trust;
apply the target; set it current and persist meta.  Persisting meta is
modelled as always succeeding (a failed `fs::write` would exit after the
filesystem mutations, which no claim distinguishes). -/
def action_load_profile (sanitize : String → String) (env : CmdEnv)
    (response : List Char) (dotulous_path home_path : RPath)
    (profile_name : String) (d : Disk) : RunOutcome × Disk :=
  match d.meta with
  | none => (.exited, d)
  | some meta =>
    let step1 : Bool × Fs :=
      match meta.current_profile with
      | some cp =>
        let r := unload_profile_from_system cp home_path env d.fs
        (r.panicked, r.fs)
      | none => (false, d.fs)
    if step1.1 then (.panicked, { d with fs := step1.2 })
    else
      let fs1 := step1.2
      match find_profile sanitize { d with fs := fs1 } dotulous_path profile_name with
      | .error _ => (.exited, { d with fs := fs1 })
      | .ok profile =>
        if !(meta.is_trusted profile.repo_path)
            && !(affirmativeResponse response) then
          (.exited, { d with fs := fs1 })
        else
          let meta2 :=
            if meta.is_trusted profile.repo_path then meta
            else meta.trust_profile profile.repo_path
          let r := load_profile_to_system profile home_path env fs1
          if r.panicked then (.panicked, { d with fs := r.fs })
          else
            let meta3 := meta2.set_current_profile profile
            (.ok, { d with fs := r.fs, meta := some meta3 })

/-- `action_reload_profile` (src/main.rs lines 221-247): load meta; require a
current profile; re-read the manifest from the old profile's `repo_path`
*before* unloading anything, exiting (disk untouched) when that fails; then
unload the old copy, clear the current profile, load the fresh copy, set it
current and persist meta. -/
def action_reload_profile (env : CmdEnv) (home_path : RPath) (d : Disk) :
    RunOutcome × Disk :=
  match d.meta with
  | none => (.exited, d)
  | some meta =>
    match meta.current_profile with
    | none => (.exited, d)
    | some old_profile =>
      match from_manifest d old_profile.repo_path with
      | .error _ => (.exited, d)
      | .ok new_profile =>
        let r1 := unload_profile_from_system old_profile home_path env d.fs
        if r1.panicked then (.panicked, { d with fs := r1.fs })
        else
          let meta2 := meta.empty_current_profile
          let r2 := load_profile_to_system new_profile home_path env r1.fs
          if r2.panicked then (.panicked, { d with fs := r2.fs })
          else
            let meta3 := meta2.set_current_profile new_profile
            (.ok, { d with fs := r2.fs, meta := some meta3 })

/-! Concrete sample values used to instantiate the theorems below. -/

/-- Identity name sanitizer used in concrete scenarios. -/
def idSan : String → String := fun s => s

/-- Command environment in which every command succeeds. -/
def okEnv : CmdEnv := fun _ => .success

/-- Command environment in which every spawn fails (`Command::output` is
`Err`). -/
def spawnFailEnv : CmdEnv := fun _ => .spawnFailure

/-- Command environment in which every command exits with status 1. -/
def nonzeroEnv : CmdEnv := fun _ => .nonzeroExit 1

/-- Sample home directory `/home/user`. -/
def sampleHome : RPath := ⟨true, ["home", "user"]⟩

/-- Sample `~/.dotulous` directory. -/
def sampleDotulous : RPath := sampleHome.join ⟨false, [".dotulous"]⟩

/-- Sample directory of the profile named `work`. -/
def sampleProfileDir : RPath := sampleDotulous.join ⟨false, ["work"]⟩

/-- A stored manifest record whose serialized path fields point elsewhere. -/
def sampleStored : DotfileProfile :=
  ⟨"work", ⟨true, ["elsewhere", "manifest.json"]⟩, ⟨true, ["elsewhere"]⟩,
    [(⟨false, ["bashrc"]⟩, ⟨false, [".bashrc"]⟩)], [], [], []⟩

/-- The profile `from_manifest` actually returns for `sampleStored`. -/
def sampleLoaded : DotfileProfile :=
  { sampleStored with
    manifest_path := sampleProfileDir.join manifestFile
    repo_path := sampleProfileDir }

/-- A freshly created empty `work` profile. -/
def sampleEmptyProfile : DotfileProfile := DotfileProfile.new "work" sampleProfileDir

/-- Disk holding only the `work` manifest. -/
def sampleDisk : Disk :=
  ⟨[⟨rootPath, .dir⟩, ⟨sampleHome, .dir⟩, ⟨sampleProfileDir, .dir⟩],
   some Meta.new,
   [(sampleProfileDir.join manifestFile, sampleStored)]⟩

/-- Profile with a pre-command, a post-command and one file entry, for the
command-failure scenarios. -/
def cmdProfile : DotfileProfile :=
  ⟨"cmds", sampleProfileDir.join manifestFile, sampleProfileDir,
    [(⟨false, ["bashrc"]⟩, ⟨false, [".bashrc"]⟩)], ["pre1"], ["post1"], []⟩

/-- Filesystem before the command-failure scenarios. -/
def cmdFs : Fs := [⟨rootPath, .dir⟩, ⟨sampleHome, .dir⟩]

/-- The profile active before the declined-trust `load` scenario: one file
installed at `~/.bashrc`. -/
def activeOld : DotfileProfile :=
  ⟨"old", (sampleDotulous.join ⟨false, ["old"]⟩).join manifestFile,
    sampleDotulous.join ⟨false, ["old"]⟩,
    [(⟨false, ["bashrc"]⟩, ⟨false, [".bashrc"]⟩)], [], [], []⟩

/-- Path of the file the active profile installed under the home directory. -/
def installedLink : RPath := sampleHome.join ⟨false, [".bashrc"]⟩

/-- Disk for the declined-trust scenario: `old` is active with its file
present in the home directory, and the untrusted target `work` exists. -/
def declineDisk : Disk :=
  ⟨[⟨rootPath, .dir⟩, ⟨sampleHome, .dir⟩, ⟨sampleProfileDir, .dir⟩,
    ⟨installedLink, .file⟩],
   some ⟨"", some activeOld, none, [activeOld.repo_path]⟩,
   [(sampleProfileDir.join manifestFile, sampleStored)]⟩

/-- Disk for the witness of the amended C1: nothing active, untrusted target
present. -/
def cleanDisk : Disk :=
  ⟨[⟨rootPath, .dir⟩, ⟨sampleHome, .dir⟩, ⟨sampleProfileDir, .dir⟩],
   some Meta.new,
   [(sampleProfileDir.join manifestFile, sampleStored)]⟩

/-- Is `p` strictly below `base`: same absoluteness, `base`'s components a
proper prefix of `p`'s. -/
def strictUnderB (base p : RPath) : Bool :=
  base.absolute == p.absolute && base.components.isPrefixOf p.components &&
    (base.components.length != p.components.length)

/-- A degenerate unload destination: the relative destination resolves (under
`home`) to the home directory itself or to the filesystem root. -/
def destBadB (home destRel : RPath) : Bool :=
  (home.join destRel == home) || (home.join destRel == rootPath)

/-- Destination shapes covered by the amended unload-safety claim: degenerate,
or strictly inside the home directory. -/
def destSafeB (home destRel : RPath) : Bool :=
  destBadB home destRel || strictUnderB home (home.join destRel)

/-- Profile whose second `files` entry has the degenerate destination `""`
(which `Path::join` resolves to the home directory itself). -/
def degenerateP : DotfileProfile :=
  ⟨"danger", sampleProfileDir.join manifestFile, sampleProfileDir,
    [(⟨false, ["bashrc"]⟩, ⟨false, [".bashrc"]⟩),
     (⟨false, ["x"]⟩, ⟨false, []⟩)],
    [], [], []⟩

/-- Filesystem before the degenerate unload: root, home, and the previously
installed `~/.bashrc`. -/
def degenerateFs : Fs :=
  [⟨rootPath, .dir⟩, ⟨sampleHome, .dir⟩, ⟨installedLink, .file⟩]

/-! Theorems settling the claims. -/

/-- Claim C5: a Profile returned by a successful manifest load has its
`manifest_path` and `repo_path` fields equal to the path actually used for
loading (`profile_path/manifest.json` and `profile_path` respectively),
regardless of what values were stored in the serialized record. -/
theorem fromManifest_recomputes_paths (d : Disk) (profile_path : RPath)
    (p : DotfileProfile) (h : from_manifest d profile_path = .ok p) :
    p.manifest_path = profile_path.join manifestFile ∧
    p.repo_path = profile_path := by
  unfold from_manifest at h
  cases hl : lookupManifest d (profile_path.join manifestFile) with
  | none => rw [hl] at h; cases h
  | some stored =>
    rw [hl] at h
    cases h
    exact ⟨rfl, rfl⟩

/-- Witness for `fromManifest_recomputes_paths` at a concrete disk whose
stored record claims foreign paths. -/
theorem fromManifest_recomputes_paths_witness :
    from_manifest sampleDisk sampleProfileDir = .ok sampleLoaded ∧
    (sampleLoaded.manifest_path = sampleProfileDir.join manifestFile ∧
      sampleLoaded.repo_path = sampleProfileDir) :=
  ⟨by decide,
   fromManifest_recomputes_paths sampleDisk sampleProfileDir sampleLoaded (by decide)⟩

/-- Claim C6: for every Profile whose `files` mapping is non-empty,
`fill_files` returns the `FillManifestArrayNotEmpty` error and leaves the
profile (including its `files` mapping) and the on-disk manifest
unmodified. -/
theorem fillFiles_nonEmpty_fails (p : DotfileProfile)
    (scan : Option (List DirEntry)) (writeOk : Bool) (d : Disk)
    (h : p.files ≠ []) :
    fill_files p scan writeOk d = (.error .fillManifestArrayNotEmpty, p, d) := by
  have he : p.files.isEmpty = false := by
    cases hf : p.files with
    | nil => exact absurd hf h
    | cons a l => rfl
  unfold fill_files
  rw [he]
  rfl

/-- Witness for `fillFiles_nonEmpty_fails` on a profile with one entry. -/
theorem fillFiles_nonEmpty_fails_witness :
    sampleStored.files ≠ [] ∧
    fill_files sampleStored none true sampleDisk =
      (.error .fillManifestArrayNotEmpty, sampleStored, sampleDisk) :=
  ⟨by decide, fillFiles_nonEmpty_fails sampleStored none true sampleDisk (by decide)⟩

/-- Claim C8: `Meta::set_current_profile` modifies only the `current_profile`
field — `profile_path`, `trusted_profiles` and the sentinel are unchanged —
and no `Meta` operation ever sets `profile_path` to `some`: `trust_profile`
leaves it alone, only `empty_current_profile` writes it (to `none`), and
`Meta::new` starts it at `none`. -/
theorem setCurrentProfile_frame :
    (∀ (m : Meta) (p : DotfileProfile),
      (m.set_current_profile p).current_profile = some p ∧
      (m.set_current_profile p).profile_path = m.profile_path ∧
      (m.set_current_profile p).trusted_profiles = m.trusted_profiles ∧
      (m.set_current_profile p).do_not_touch_this_file = m.do_not_touch_this_file) ∧
    (∀ (m : Meta) (q : RPath),
      (m.trust_profile q).profile_path = m.profile_path) ∧
    (∀ m : Meta, m.empty_current_profile.profile_path = none) ∧
    Meta.new.profile_path = none ∧
    (∀ (m : Meta) (op : MetaOp),
      (op.apply m).profile_path = m.profile_path ∨
      (op.apply m).profile_path = none) := by
  refine ⟨fun m p => ⟨rfl, rfl, rfl, rfl⟩, fun m q => rfl, fun m => rfl, rfl,
    fun m op => ?_⟩
  cases op with
  | setCurrent p => exact Or.inl rfl
  | emptyCurrent => exact Or.inr rfl
  | trust path => exact Or.inl rfl

/-- Claim C9: trust is monotone — `is_trusted p` holds immediately after
`trust_profile p`, and every sequence of `Meta` operations preserves an
already-trusted path, so `is_trusted p` never goes from `true` to `false`. -/
theorem trust_is_monotone :
    (∀ (m : Meta) (p : RPath), (m.trust_profile p).is_trusted p = true) ∧
    (∀ (m : Meta) (p : RPath) (ops : List MetaOp),
      m.is_trusted p = true → (applyMetaOps m ops).is_trusted p = true) := by
  have hstep : ∀ (m : Meta) (p : RPath) (op : MetaOp),
      m.is_trusted p = true → (op.apply m).is_trusted p = true := by
    intro m p op h
    cases op with
    | setCurrent q => exact h
    | emptyCurrent => exact h
    | trust q =>
      simp only [Meta.is_trusted, Meta.trust_profile, MetaOp.apply,
        List.contains_eq_any_beq, List.any_append, Bool.or_eq_true] at h ⊢
      exact Or.inl h
  constructor
  · intro m p
    simp [Meta.is_trusted, Meta.trust_profile, List.contains_eq_any_beq,
      List.any_append]
  · intro m p ops
    induction ops generalizing m with
    | nil => exact fun h => h
    | cons op rest ih => exact fun h => ih (op.apply m) (hstep m p op h)

/-- Witness for `trust_is_monotone`: a concrete trust survives a concrete
operation sequence. -/
theorem trust_is_monotone_witness :
    (Meta.new.trust_profile sampleProfileDir).is_trusted sampleProfileDir = true ∧
    (applyMetaOps (Meta.new.trust_profile sampleProfileDir)
      [.emptyCurrent, .setCurrent sampleStored]).is_trusted sampleProfileDir = true :=
  ⟨trust_is_monotone.1 Meta.new sampleProfileDir,
   trust_is_monotone.2 (Meta.new.trust_profile sampleProfileDir) sampleProfileDir
     [.emptyCurrent, .setCurrent sampleStored] (by decide)⟩

/-- Claim C4: `reload()` re-reads the manifest from the current profile's own
path before anything is unloaded; when that re-read fails, the action exits
with the disk completely untouched — no symlink of the old profile is removed
and the persisted meta still records the old profile. -/
theorem reload_rereadFailure_aborts_untouched (env : CmdEnv)
    (home_path : RPath) (d : Disk) (m : Meta) (old : DotfileProfile)
    (hmeta : d.meta = some m)
    (hcur : m.current_profile = some old)
    (hfail : lookupManifest d (old.repo_path.join manifestFile) = none) :
    action_reload_profile env home_path d = (.exited, d) := by
  unfold action_reload_profile
  rw [hmeta]
  simp only [hcur, from_manifest, hfail]

/-- Witness for `reload_rereadFailure_aborts_untouched`: the `work` manifest
was deleted mid-session. -/
theorem reload_rereadFailure_aborts_untouched_witness :
    action_reload_profile okEnv sampleHome
      ⟨[⟨rootPath, .dir⟩, ⟨sampleHome, .dir⟩],
       some ⟨"", some sampleLoaded, none, [sampleProfileDir]⟩, []⟩ =
      (.exited,
       ⟨[⟨rootPath, .dir⟩, ⟨sampleHome, .dir⟩],
        some ⟨"", some sampleLoaded, none, [sampleProfileDir]⟩, []⟩) :=
  reload_rereadFailure_aborts_untouched okEnv sampleHome _
    ⟨"", some sampleLoaded, none, [sampleProfileDir]⟩ sampleLoaded
    (by decide) (by decide) (by decide)

/-- Writing a manifest record and reading it back at the same path yields the
record just written. -/
lemma lookupManifest_writeManifest (d : Disk) (k : RPath)
    (prof : DotfileProfile) :
    lookupManifest (writeManifest d k prof) k = some prof := by
  unfold lookupManifest writeManifest
  rw [List.find?_cons_of_pos]
  · rfl
  · simp

/-- Claim C7: every Profile the program constructs keeps
`manifest_path = repo_path/manifest.json` (both `DotfileProfile::new` and
`from_manifest` establish it), and for any such Profile, saving its manifest
and loading a Profile back from the same profile directory yields identical
`name`, `files`, `pre_commands`, `post_commands` and `removal_commands`
(the two path fields are recomputed on load and excluded). -/
theorem save_load_roundTrip :
    (∀ (name : String) (path : RPath),
      (DotfileProfile.new name path).manifest_path =
        (DotfileProfile.new name path).repo_path.join manifestFile) ∧
    (∀ (d : Disk) (pp : RPath) (q : DotfileProfile),
      from_manifest d pp = .ok q →
      q.manifest_path = q.repo_path.join manifestFile) ∧
    (∀ (p : DotfileProfile) (d : Disk),
      p.manifest_path = p.repo_path.join manifestFile →
      ∃ d2 q, save_manifest p true d = .ok d2 ∧
        from_manifest d2 p.repo_path = .ok q ∧
        q.name = p.name ∧ q.files = p.files ∧
        q.pre_commands = p.pre_commands ∧ q.post_commands = p.post_commands ∧
        q.removal_commands = p.removal_commands) := by
  refine ⟨fun name path => rfl, fun d pp q h => ?_, fun p d hpath => ?_⟩
  · unfold from_manifest at h
    cases hl : lookupManifest d (pp.join manifestFile) with
    | none => rw [hl] at h; cases h
    | some stored => rw [hl] at h; cases h; rfl
  · refine ⟨writeManifest d p.manifest_path p,
      { p with manifest_path := p.repo_path.join manifestFile,
               repo_path := p.repo_path }, rfl, ?_, rfl, rfl, rfl, rfl, rfl⟩
    unfold from_manifest
    rw [← hpath, lookupManifest_writeManifest]

/-- Witness for `save_load_roundTrip`: round trip of a concrete profile. -/
theorem save_load_roundTrip_witness :
    ∃ d2 q, save_manifest sampleEmptyProfile true sampleDisk = .ok d2 ∧
      from_manifest d2 sampleEmptyProfile.repo_path = .ok q ∧
      q.name = sampleEmptyProfile.name ∧ q.files = sampleEmptyProfile.files ∧
      q.pre_commands = sampleEmptyProfile.pre_commands ∧
      q.post_commands = sampleEmptyProfile.post_commands ∧
      q.removal_commands = sampleEmptyProfile.removal_commands :=
  save_load_roundTrip.2.2 sampleEmptyProfile sampleDisk (by decide)

/-- Claim C10: whenever `fill_files` returns the not-empty error or a
directory-read failure, the on-disk manifest has not been written (the disk
is unchanged); yet on a directory-read failure partway through the scan the
in-memory `files` mapping may already be partially populated, as the second
conjunct exhibits on a scan that fails after one good entry. -/
theorem fillFiles_error_leaves_disk :
    (∀ (p : DotfileProfile) (scan : Option (List DirEntry)) (writeOk : Bool)
       (d : Disk) (e : DotulousError) (p2 : DotfileProfile) (d2 : Disk),
      fill_files p scan writeOk d = (.error e, p2, d2) →
      (e = .fillManifestArrayNotEmpty ∨ e = .failedReadProfileDirectory) →
      d2 = d) ∧
    (fill_files sampleEmptyProfile
        (some [.ok (sampleProfileDir.join ⟨false, ["a"]⟩), .error ()])
        true sampleDisk).1 = .error .failedReadProfileDirectory ∧
    (fill_files sampleEmptyProfile
        (some [.ok (sampleProfileDir.join ⟨false, ["a"]⟩), .error ()])
        true sampleDisk).2.1.files =
      [(⟨false, ["a"]⟩, ⟨false, ["a"]⟩)] ∧
    (fill_files sampleEmptyProfile
        (some [.ok (sampleProfileDir.join ⟨false, ["a"]⟩), .error ()])
        true sampleDisk).2.2 = sampleDisk := by
  refine ⟨?_, by decide, by decide, by decide⟩
  intro p scan writeOk d e p2 d2 h _he
  unfold fill_files at h
  split at h
  · injection h with h1 h23; injection h23 with h2 h3; exact h3.symm
  · split at h
    · injection h with h1 h23; injection h23 with h2 h3; exact h3.symm
    · split at h
      · injection h with h1 h23; injection h23 with h2 h3; exact h3.symm
      · split at h
        · injection h with h1 h23; injection h23 with h2 h3; exact h3.symm
        · injection h with h1 h23; injection h1

/-- Witness for `fillFiles_error_leaves_disk`: concrete unreadable
directory. -/
theorem fillFiles_error_leaves_disk_witness :
    fill_files sampleStored none true sampleDisk =
      (.error .fillManifestArrayNotEmpty, sampleStored, sampleDisk) ∧
    sampleDisk = sampleDisk :=
  ⟨by decide,
   fillFiles_error_leaves_disk.1 sampleStored none true sampleDisk
     .fillManifestArrayNotEmpty sampleStored sampleDisk (by decide)
     (Or.inl rfl)⟩

/-- Claim C3 evaluated at its failing input: `load_profile_to_system` with a
pre-command whose spawn fails panics — `command.unwrap()` is called on the
`Err` — so the symlink phase never runs (the filesystem is unchanged) and the
operation does not complete, contradicting the claim that failures are logged
and never abort.  With a command that exits non-zero instead, the operation
does continue, but `Command::output` returned `Ok`, `is_err()` is `false`,
and no error line is ever printed: the failure is not logged either. -/
theorem load_commandFailure_divergence :
    (load_profile_to_system cmdProfile sampleHome spawnFailEnv cmdFs).panicked
        = true ∧
    (load_profile_to_system cmdProfile sampleHome spawnFailEnv cmdFs).fs
        = cmdFs ∧
    runCommands nonzeroEnv ["pre1"] = (false, []) ∧
    runCommands nonzeroEnv ["post1"] = (false, []) ∧
    (load_profile_to_system cmdProfile sampleHome nonzeroEnv cmdFs).panicked
        = false := by
  decide

/-- Claim C1 counterexample: loading the untrusted profile `work` while `old`
is active and answering `"n"` does exit before any meta change, but the
previously active profile's file at `~/.bashrc` has already been removed —
`action_load_profile` unloads the current profile from the system before the
trust prompt, so the operation is not free of filesystem mutation under
`home_path`. -/
theorem load_decline_removes_active_links :
    (action_load_profile idSan okEnv ['n'] sampleDotulous sampleHome "work"
        declineDisk).1 = .exited ∧
    pathExists declineDisk.fs installedLink = true ∧
    pathExists (action_load_profile idSan okEnv ['n'] sampleDotulous
        sampleHome "work" declineDisk).2.fs installedLink = false := by
  decide

/-- Any profile `find_profile` returns has its `repo_path` equal to the
sanitized target directory, whatever the stored record said. -/
lemma find_profile_ok_repo (sanitize : String → String) (d : Disk)
    (dotulous_path : RPath) (profile_name : String) (t : DotfileProfile)
    (h : find_profile sanitize d dotulous_path profile_name = .ok t) :
    t.repo_path = dotulous_path.join ⟨false, [sanitize profile_name]⟩ := by
  unfold find_profile at h
  split at h
  · cases h
  · unfold from_manifest at h
    cases hl : lookupManifest d
        ((dotulous_path.join ⟨false, [sanitize profile_name]⟩).join
          manifestFile) with
    | none => rw [hl] at h; cases h
    | some stored => rw [hl] at h; cases h; rfl

/-- Claim C1 as amended: when the target profile's directory is untrusted and
the trimmed, lowercased response is not `"y"`, `action_load_profile` never
persists anything — the stored Meta (trusted set and current-profile field)
and the stored manifests are unchanged — and, provided no profile was active
at entry, it exits with the whole disk (including the filesystem under
`home_path`) untouched.  A previously active profile, however, has already
been unloaded from the system before the prompt; the counterexample above
exhibits that mutation. -/
theorem load_decline_aborts_without_persisting (sanitize : String → String)
    (env : CmdEnv) (response : List Char) (dotulous_path home_path : RPath)
    (profile_name : String) (d : Disk) (m : Meta)
    (hmeta : d.meta = some m)
    (htrust : m.is_trusted
      (dotulous_path.join ⟨false, [sanitize profile_name]⟩) = false)
    (hresp : affirmativeResponse response = false) :
    (action_load_profile sanitize env response dotulous_path home_path
        profile_name d).2.meta = d.meta ∧
    (action_load_profile sanitize env response dotulous_path home_path
        profile_name d).2.manifests = d.manifests ∧
    (m.current_profile = none →
      action_load_profile sanitize env response dotulous_path home_path
        profile_name d = (.exited, d)) := by
  cases hcp : m.current_profile with
  | none =>
    have hd : ({ fs := d.fs, meta := some m, manifests := d.manifests } : Disk)
        = d := by
      rw [← hmeta]
    cases hfp : find_profile sanitize d dotulous_path profile_name with
    | error e =>
      refine ⟨?_, ?_, fun _ => ?_⟩ <;>
        simp [action_load_profile, hmeta, hcp, hd, hfp]
    | ok t =>
      have htr : m.is_trusted t.repo_path = false := by
        rw [find_profile_ok_repo sanitize d dotulous_path profile_name t hfp]
        exact htrust
      refine ⟨?_, ?_, fun _ => ?_⟩ <;>
        simp [action_load_profile, hmeta, hcp, hd, hfp, htr, hresp]
  | some cp =>
    have hmm : (action_load_profile sanitize env response dotulous_path
        home_path profile_name d).2.meta = d.meta ∧
        (action_load_profile sanitize env response dotulous_path home_path
          profile_name d).2.manifests = d.manifests := by
      unfold action_load_profile
      rw [hmeta]
      simp only [hcp]
      by_cases hpk :
          (unload_profile_from_system cp home_path env d.fs).panicked = true
      · simp [hpk, hmeta]
      · simp only [hpk]
        cases hfp : find_profile sanitize
            { fs := (unload_profile_from_system cp home_path env d.fs).fs,
              meta := some m, manifests := d.manifests }
            dotulous_path profile_name with
        | error e => simp [hfp, hmeta]
        | ok t =>
          have htr : m.is_trusted t.repo_path = false := by
            rw [find_profile_ok_repo _ _ _ _ t hfp]
            exact htrust
          simp [hfp, htr, hresp, hmeta]
    exact ⟨hmm.1, hmm.2, fun h0 => by cases h0⟩

/-- Witness for `load_decline_aborts_without_persisting` with response
`"no"` and no active profile. -/
theorem load_decline_aborts_without_persisting_witness :
    Meta.new.current_profile = none ∧
    action_load_profile idSan okEnv ['n', 'o'] sampleDotulous sampleHome
      "work" cleanDisk = (.exited, cleanDisk) :=
  ⟨rfl,
   (load_decline_aborts_without_persisting idSan okEnv ['n', 'o']
     sampleDotulous sampleHome "work" cleanDisk Meta.new (by decide)
     (by decide) (by decide)).2.2 (by decide)⟩

/-- Filtering with a predicate that keeps every entry at path `q` does not
change the lookup at `q`. -/
lemma fsLookup_filter_keep (pred : FsEntry → Bool) (q : RPath)
    (hq : ∀ e : FsEntry, e.path = q → pred e = true) :
    ∀ fs : Fs, fsLookup (fs.filter pred) q = fsLookup fs q := by
  intro fs
  induction fs with
  | nil => rfl
  | cons e rest ih =>
    by_cases hp : pred e = true
    · rw [List.filter_cons_of_pos hp]
      by_cases he : e.path = q
      · unfold fsLookup
        rw [List.find?_cons_of_pos _ (by simp [he]),
          List.find?_cons_of_pos _ (by simp [he])]
      · unfold fsLookup at ih ⊢
        rw [List.find?_cons_of_neg _ (by simp [he]),
          List.find?_cons_of_neg _ (by simp [he])]
        exact ih
    · have hne : e.path ≠ q := fun hh => hp (hq e hh)
      rw [List.filter_cons_of_neg hp]
      unfold fsLookup at ih ⊢
      rw [List.find?_cons_of_neg _ (by simp [hne])]
      exact ih

/-- `remove_dir_all` at `dpath` does not change lookups outside `dpath`'s
subtree. -/
lemma fsLookup_removeDirAll (fs : Fs) (dpath q : RPath)
    (h : withinPath dpath q = false) :
    fsLookup (removeDirAll fs dpath) q = fsLookup fs q := by
  unfold removeDirAll
  exact fsLookup_filter_keep _ q (fun e he => by rw [he, h]; rfl) fs

/-- `remove_file` at `dpath` does not change lookups at other paths. -/
lemma fsLookup_removeFile (fs : Fs) (dpath q : RPath) (h : q ≠ dpath) :
    fsLookup (removeFile fs dpath) q = fsLookup fs q := by
  unfold removeFile
  exact fsLookup_filter_keep _ q (fun e he => by rw [he]; simpa using h) fs

/-- Consequences of a destination lying strictly below the home directory:
it is neither the root nor the home path, and removing it (even recursively)
cannot touch the root or the home path. -/
lemma strictUnder_facts (home dd : RPath) (hcomp : home.components ≠ [])
    (h : strictUnderB home dd = true) :
    dd ≠ rootPath ∧ dd ≠ home ∧
    withinPath dd rootPath = false ∧ withinPath dd home = false := by
  unfold strictUnderB at h
  simp only [Bool.and_eq_true, beq_iff_eq, bne_iff_ne, ne_eq,
    List.isPrefixOf_iff_prefix] at h
  obtain ⟨⟨habs, hpre⟩, hlen⟩ := h
  obtain ⟨t, ht⟩ := hpre
  have htne : t ≠ [] := by
    intro h0
    rw [h0, List.append_nil] at ht
    exact hlen (by rw [ht])
  have hlt : home.components.length < dd.components.length := by
    rw [← ht, List.length_append]
    have h1 : 0 < t.length := List.length_pos.mpr htne
    omega
  have hpos : 0 < dd.components.length := by
    have h1 : 0 < home.components.length := List.length_pos.mpr hcomp
    omega
  have hddne : dd.components ≠ [] := by
    intro h0
    rw [h0] at hpos
    simp at hpos
  have hnp : dd.components.isPrefixOf home.components = false := by
    cases hx : dd.components.isPrefixOf home.components with
    | false => rfl
    | true =>
      have hp2 : dd.components <+: home.components :=
        List.isPrefixOf_iff_prefix.mp hx
      have := hp2.length_le
      omega
  refine ⟨?_, ?_, ?_, ?_⟩
  · intro h0
    rw [h0] at hddne
    exact hddne rfl
  · intro h0
    rw [h0] at hlt
    omega
  · unfold withinPath
    cases hc : dd.components with
    | nil => exact absurd hc hddne
    | cons a l => simp [rootPath, List.isPrefixOf]
  · unfold withinPath
    rw [hnp, Bool.and_false]

/-- During the unload file loop, if every destination is degenerate (home or
root) or strictly inside home, the root and home directories stay present,
and the loop panics as soon as it reaches a degenerate destination. -/
lemma unloadFiles_panics_of_bad (home : RPath) (hcomp : home.components ≠ []) :
    ∀ (files : List (RPath × RPath)) (fs : Fs),
      fsLookup fs rootPath = some .dir →
      fsLookup fs home = some .dir →
      files.all (fun e => destSafeB home e.2) = true →
      files.any (fun e => destBadB home e.2) = true →
      (unloadFiles home files fs).panicked = true := by
  intro files
  induction files with
  | nil =>
    intro fs _ _ _ hbad
    simp at hbad
  | cons e rest ih =>
    obtain ⟨src, destRel⟩ := e
    intro fs hroot hhome hsafe hbad
    rw [List.all_cons, Bool.and_eq_true] at hsafe
    obtain ⟨hsafe1, hsafeR⟩ := hsafe
    have hhomeroot : home ≠ rootPath := by
      intro h0
      rw [h0] at hcomp
      exact hcomp rfl
    unfold unloadFiles
    by_cases hb : destBadB home destRel = true
    · unfold destBadB at hb
      rw [Bool.or_eq_true, beq_iff_eq, beq_iff_eq] at hb
      have hlook : fsLookup fs (home.join destRel) = some .dir := by
        cases hb with
        | inl h0 => rw [h0]; exact hhome
        | inr h0 => rw [h0]; exact hroot
      have hex : pathExists fs (home.join destRel) = true := by
        rw [pathExists, hlook]; rfl
      have hdir : isDirAt fs (home.join destRel) = true := by
        rw [isDirAt, hlook]; rfl
      rw [if_neg (by simp [hex]), if_pos hdir]
      cases hb with
      | inl h0 =>
        rw [if_neg (by rw [h0]; exact hhomeroot), if_pos h0]
      | inr h0 =>
        rw [if_pos h0]
    · have hstrict : strictUnderB home (home.join destRel) = true := by
        unfold destSafeB at hsafe1
        rw [Bool.or_eq_true] at hsafe1
        cases hsafe1 with
        | inl h0 => exact absurd h0 hb
        | inr h0 => exact h0
      obtain ⟨hner, hneh, hwr, hwh⟩ :=
        strictUnder_facts home (home.join destRel) hcomp hstrict
      have hbadR : rest.any (fun e => destBadB home e.2) = true := by
        rw [List.any_cons, Bool.or_eq_true] at hbad
        cases hbad with
        | inl h0 => exact absurd h0 hb
        | inr h0 => exact h0
      by_cases hex : pathExists fs (home.join destRel) = true
      · rw [if_neg (by simp [hex])]
        by_cases hdir : isDirAt fs (home.join destRel) = true
        · rw [if_pos hdir, if_neg hner, if_neg hneh]
          exact ih (removeDirAll fs (home.join destRel))
            (by rw [fsLookup_removeDirAll fs _ rootPath hwr]; exact hroot)
            (by rw [fsLookup_removeDirAll fs _ home hwh]; exact hhome)
            hsafeR hbadR
        · rw [if_neg hdir]
          exact ih (removeFile fs (home.join destRel))
            (by rw [fsLookup_removeFile fs _ rootPath (Ne.symm hner)]; exact hroot)
            (by rw [fsLookup_removeFile fs _ home (Ne.symm hneh)]; exact hhome)
            hsafeR hbadR
      · rw [Bool.not_eq_true] at hex
        rw [if_pos (by simp [hex])]
        exact ih fs hroot hhome hsafeR hbadR

/-- Claim C2 counterexample: with the degenerate entry iterated second, the
guard does abort (panic) — but only when that entry is reached, after the
first (perfectly valid) entry's destination `~/.bashrc` has already been
deleted.  The abort is therefore not "without deleting anything". -/
theorem unload_degenerate_deletes_before_abort :
    (unload_profile_from_system degenerateP sampleHome okEnv
        degenerateFs).panicked = true ∧
    pathExists degenerateFs installedLink = true ∧
    pathExists (unload_profile_from_system degenerateP sampleHome okEnv
        degenerateFs).fs installedLink = false := by
  decide

/-- Claim C2 as amended: if some `files` entry's destination, joined under
`home_path`, equals `home_path` itself or the filesystem root (and every
destination is either such a degenerate path or lies strictly inside the
home directory, which is present as a directory along with the root),
`unload_profile_from_system` panics when it reaches the first degenerate
entry — never logged-and-continued — but entries iterated before it have
already been deleted, as the counterexample shows. -/
theorem unload_degenerate_dest_panics (p : DotfileProfile) (home : RPath)
    (env : CmdEnv) (fs : Fs)
    (hcomp : home.components ≠ [])
    (hroot : fsLookup fs rootPath = some .dir)
    (hhome : fsLookup fs home = some .dir)
    (hsafe : p.files.all (fun e => destSafeB home e.2) = true)
    (hbad : p.files.any (fun e => destBadB home e.2) = true) :
    (unload_profile_from_system p home env fs).panicked = true := by
  have h := unloadFiles_panics_of_bad home hcomp p.files fs hroot hhome
    hsafe hbad
  unfold unload_profile_from_system
  simp only [h, if_true]

/-- Witness for `unload_degenerate_dest_panics` at the concrete degenerate
profile. -/
theorem unload_degenerate_dest_panics_witness :
    (unload_profile_from_system degenerateP sampleHome okEnv
        degenerateFs).panicked = true :=
  unload_degenerate_dest_panics degenerateP sampleHome okEnv degenerateFs
    (by decide) (by decide) (by decide) (by decide) (by decide)

end Dotulous
